import Mathlib

/-!
Shallow embedding of the Stripe webhook worker in `main.ts` of the
stripeflare repository, together with theorems checking the spec's claims
about it.

Modelling conventions:
* Bytes are `List Nat` (one entry per byte).
* A request body stream is the list of chunks it yields in order, plus a
  flag saying whether the stream errors (rejects) after those chunks
  instead of signalling `done` — this covers both an abort by the caller
  and a transport error mid-stream.
* JS `null`/`undefined` fields are `Option`; JS truthiness of a string is
  non-emptiness, of a nullable number it is "non-null and non-zero".
* The Stripe library call `stripe.webhooks.constructEventAsync` (together
  with the `TextDecoder` step feeding it) is an external trusted primitive
  per the spec; the embedded `fetch` is parameterised by it as a function
  from the raw body bytes, the signature header value and the signing
  secret to `Except String Event` (`Except.error` models the thrown
  verification error caught at line 133 of `main.ts`).
* The only observable side effects of the worker besides its response are
  the fulfillment placeholder in the checkout branch (lines 173–181,
  `console.log` + "Do something here in your KV or DO") and the
  subscription-removal branch of `updateSubscribed` (lines 18–21); they
  are modelled as emitted `Effect`s.  Plain diagnostic `console.log`
  calls are not modelled as effects.
-/

namespace Stripeflare

/-- Bytes of a request body, one natural number per byte. -/
abbrev Bytes := List Nat

/-- A request body stream: the chunks it yields in order, and whether it
errors (rejects) after yielding them instead of reporting `done`. -/
structure BodyStream where
  chunks : List Bytes
  failsAtEnd : Bool
deriving DecidableEq

/-- The error a failing body stream rejects with. -/
inductive StreamError
  | incomplete
deriving DecidableEq

/-- `result.set(chunk, position)` on a typed array (`main.ts` line 51):
overwrite `dst` starting at `pos` with the bytes of `src`. -/
def setAt (dst src : Bytes) (pos : Nat) : Bytes :=
  dst.take pos ++ src ++ dst.drop (pos + src.length)

/-- The copy loop of `streamToBuffer` (`main.ts` lines 49–53): write each
chunk at the running position. -/
def copyLoop : List Bytes → Bytes → Nat → Bytes
  | [], result, _ => result
  | c :: cs, result, pos => copyLoop cs (setAt result c pos) (pos + c.length)

/-- `chunks.reduce((acc, chunk) => acc + chunk.length, 0)`
(`main.ts` line 43). -/
def totalLength (chunks : List Bytes) : Nat :=
  chunks.foldl (fun acc chunk => acc + chunk.length) 0

/-- `streamToBuffer` (`main.ts` lines 24–56).  The read loop collects every
chunk; if the stream rejects, the exception propagates (the `try`/`finally`
only releases the lock, it does not catch).  On success the chunks are
copied into a fresh zero-initialised buffer of the total length. -/
def streamToBuffer (s : BodyStream) : Except StreamError Bytes :=
  if s.failsAtEnd then
    .error .incomplete
  else
    .ok (copyLoop s.chunks (List.replicate (totalLength s.chunks) 0) 0)

/-- `customer_details` of a checkout session: both fields are nullable in
the Stripe API. -/
structure CustomerDetails where
  email : Option String
  name : Option String
deriving DecidableEq

/-- The `event.data.object` payload.  Every field is optional, mirroring JS
property access: reading a field a given payload kind does not carry
yields `undefined` (`none`). -/
structure StripeObject where
  payment_status : Option String := none
  mode : Option String := none
  amount_total : Option Int := none
  payment_link : Option String := none
  customer_details : Option CustomerDetails := none
  currency : Option String := none
  status : Option String := none
deriving DecidableEq

/-- A verified Stripe event as returned by the library. -/
structure Event where
  id : String
  type : String
  object : StripeObject
deriving DecidableEq

/-- The observable side effects of the worker (see module docstring). -/
inductive Effect
  | fulfill (email : Option String) (name : Option String) (amount : Int)
  | revoke
deriving DecidableEq

/-- The record returned by `updateSubscribed` (`main.ts` lines 15, 18–21). -/
structure SubResult where
  status : Nat
  message : String
deriving DecidableEq

/-- `updateSubscribed` (`main.ts` lines 10–22), also reporting the
subscription-removal side effect its message documents. -/
def updateSubscribed (data : StripeObject) : SubResult × List Effect :=
  let shouldRemoveSubscription :=
    data.status == some "unpaid" || data.status == some "canceled"
  if shouldRemoveSubscription then
    ({ status := 200,
       message := "Removed from subscribers (they had credits before removal)" },
     [Effect.revoke])
  else
    ({ status := 200, message := "No action required" }, [])

/-- An HTTP response; `new Response(body)` defaults to status 200. -/
structure Response where
  body : String
  status : Nat := 200
deriving DecidableEq

/-- The outcome of one invocation of the worker's `fetch`: either a
response (with the effects emitted while producing it), or an exception
that escaped `fetch` uncaught. -/
inductive FetchResult
  | ok (r : Response) (effects : List Effect)
  | escaped (e : StreamError)
deriving DecidableEq

/-- Whether a `fetch` invocation produced a response (no escaped
exception). -/
def FetchResult.isOk : FetchResult → Bool
  | .ok _ _ => true
  | .escaped _ => false

/-- The effects emitted by a `fetch` invocation. -/
def FetchResult.effectsOf : FetchResult → List Effect
  | .ok _ effects => effects
  | .escaped _ => []

/-- The status code of the response, when one was produced. -/
def FetchResult.statusOf : FetchResult → Option Nat
  | .ok r _ => some r.status
  | .escaped _ => none

/-- The environment bindings (`main.ts` lines 3–8). -/
structure Env where
  STRIPE_WEBHOOK_SIGNING_SECRET : String
  STRIPE_SECRET : String
  STRIPE_PUBLISHABLE_KEY : String
  STRIPE_PAYMENT_LINK_ID : String
deriving DecidableEq

/-- An inbound request: the fields `fetch` can observe.  Header names are
stored lowercased, as the Fetch API normalises them. -/
structure Request where
  url : String
  method : String
  headers : List (String × String)
  body : Option BodyStream
deriving DecidableEq

/-- `request.headers.get name` over the lowercased header list. -/
def getHeader (headers : List (String × String)) (name : String) : Option String :=
  (headers.find? (fun p => p.1 == name)).map (fun p => p.2)

/-- Template-literal rendering of a nullable string (`${name}` prints
`null` when the value is null). -/
def jsStr : Option String → String
  | none => "null"
  | some s => s

/-- The trusted Stripe primitive: `TextDecoder().decode` composed with
`stripe.webhooks.constructEventAsync` (`main.ts` lines 77 and 128–132);
arguments are the raw body bytes, the signature header value, and the
signing secret. -/
abbrev Verifier := Bytes → String → String → Except String Event

/-- `JSON.stringify({ isSuccessful: false, message: "No body" })`. -/
def noBodyJson : String :=
  "\x7b\"isSuccessful\":false,\"message\":\"No body\"\x7d"

/-- `JSON.stringify({ isSuccessful: false, message: "No stripe creds" })`. -/
def noCredsJson : String :=
  "\x7b\"isSuccessful\":false,\"message\":\"No stripe creds\"\x7d"

/-- `JSON.stringify({ isSuccessful: false, message: "No signature" })`. -/
def noSigJson : String :=
  "\x7b\"isSuccessful\":false,\"message\":\"No signature\"\x7d"

/-- `JSON.stringify({ isSuccessful: false, message: "Invalid event" })`. -/
def invalidEventJson : String :=
  "\x7b\"isSuccessful\":false,\"message\":\"Invalid event\"\x7d"

/-- `JSON.stringify(result)` for the record returned by
`updateSubscribed` (`main.ts` line 192). -/
def subResultJson (r : SubResult) : String :=
  "\x7b\"status\":" ++ toString r.status ++ ",\"message\":\"" ++ r.message ++ "\"\x7d"

/-- The message of the fulfillment response (`main.ts` lines 179–181). -/
def fulfillMsg (cd : CustomerDetails) (amount : Int) : String :=
  "Not implemented yet, but " ++ jsStr cd.name ++ " <" ++ jsStr cd.email ++
    "> paid " ++ toString amount ++ " cents"

/-- The `checkout.session.completed` branch (`main.ts` lines 139–182).
The source tests `payment_status !== "paid" || !amount_total` in one guard;
here the null case of `amount_total` is split out first (it takes the same
"Payment not paid yet" exit regardless of `payment_status`, since `!null`
is true) so that the remaining checks can use the unwrapped number. -/
def checkoutBranch (o : StripeObject) (env : Env) : FetchResult :=
  if o.payment_link != some env.STRIPE_PAYMENT_LINK_ID then
    .ok { body := "No payment link found", status := 400 } []
  else
    match o.amount_total with
    | none => .ok { body := "Payment not paid yet", status := 400 } []
    | some amount_total =>
      if o.payment_status != some "paid" || amount_total == 0 then
        .ok { body := "Payment not paid yet", status := 400 } []
      else
        match o.customer_details with
        | none => .ok { body := "No customer details provided", status := 400 } []
        | some customer_details =>
          if o.mode == some "subscription" || o.mode == some "setup" then
            .ok { body := "Not supported yet", status := 400 } []
          else if amount_total < 50 then
            .ok { body := "Paid less than $0.50", status := 400 } []
          else
            .ok { body := fulfillMsg customer_details amount_total }
              [Effect.fulfill customer_details.email customer_details.name amount_total]

/-- Dispatch on `event.type` (`main.ts` lines 139, 185–205). -/
def dispatchEvent (event : Event) (env : Env) : FetchResult :=
  if event.type == "checkout.session.completed" then
    checkoutBranch event.object env
  else if event.type == "customer.subscription.deleted"
      || event.type == "customer.subscription.updated"
      || event.type == "customer.subscription.paused" then
    let r := updateSubscribed event.object
    .ok { body := subResultJson r.1 } r.2
  else
    .ok { body := invalidEventJson, status := 404 } []

/-- The worker's `fetch` handler (`main.ts` lines 66–207), parameterised by
the trusted Stripe verification primitive.  Note that the `await
streamToBuffer(request.body)` at line 75 is not wrapped in any
`try`/`catch`, so a stream error escapes `fetch` as an uncaught
exception. -/
def fetch (constructEvent : Verifier) (request : Request) (env : Env) : FetchResult :=
  match request.body with
  | none => .ok { body := noBodyJson } []
  | some bodyStream =>
    match streamToBuffer bodyStream with
    | .error e => .escaped e
    | .ok rawBody =>
      if env.STRIPE_WEBHOOK_SIGNING_SECRET.isEmpty || env.STRIPE_SECRET.isEmpty
          || env.STRIPE_PUBLISHABLE_KEY.isEmpty || env.STRIPE_PAYMENT_LINK_ID.isEmpty then
        .ok { body := noCredsJson, status := 500 } []
      else
        match getHeader request.headers "stripe-signature" with
        | none => .ok { body := noSigJson, status := 400 } []
        | some stripeSignature =>
          if stripeSignature.isEmpty then
            .ok { body := noSigJson, status := 400 } []
          else
            match constructEvent rawBody stripeSignature env.STRIPE_WEBHOOK_SIGNING_SECRET with
            | .error err => .ok { body := "webhook error " ++ err, status := 400 } []
            | .ok event => dispatchEvent event env

/-- Number of fulfillment effects in a list. -/
def countFulfill (l : List Effect) : Nat :=
  l.countP (fun e => match e with | .fulfill _ _ _ => true | .revoke => false)

lemma totalLength_nil : totalLength [] = 0 := rfl

lemma foldl_add_init (l : List Bytes) (a : Nat) :
    l.foldl (fun acc chunk => acc + chunk.length) a = a + totalLength l := by
  induction l generalizing a with
  | nil => simp [totalLength]
  | cons c cs ih =>
    simp only [List.foldl_cons, totalLength]
    rw [ih (a + c.length), ih (0 + c.length)]
    omega

lemma totalLength_cons (c : Bytes) (cs : List Bytes) :
    totalLength (c :: cs) = c.length + totalLength cs := by
  simp only [totalLength, List.foldl_cons, Nat.zero_add]
  exact foldl_add_init cs c.length

lemma setAt_append (done c rest : Bytes) :
    setAt (done ++ rest) c done.length = done ++ c ++ rest.drop c.length := by
  unfold setAt
  rw [List.take_left, List.drop_append]

lemma drop_replicate_add (k m : Nat) (a : Nat) :
    (List.replicate (k + m) a).drop k = List.replicate m a := by
  induction k with
  | zero => simp
  | succ k ih => simp [List.replicate_succ, Nat.succ_add, ih]

lemma copyLoop_append (chunks : List Bytes) : ∀ done : Bytes,
    copyLoop chunks (done ++ List.replicate (totalLength chunks) 0) done.length
      = done ++ chunks.flatten := by
  induction chunks with
  | nil =>
    intro done
    simp [copyLoop, totalLength]
  | cons c cs ih =>
    intro done
    rw [totalLength_cons]
    show copyLoop cs
        (setAt (done ++ List.replicate (c.length + totalLength cs) 0) c done.length)
        (done.length + c.length) = done ++ (c :: cs).flatten
    rw [setAt_append, drop_replicate_add]
    have hlen : done.length + c.length = (done ++ c).length := by
      simp
    rw [hlen, List.append_assoc done c, ← List.append_assoc done c, ih (done ++ c)]
    simp

lemma copyLoop_join (chunks : List Bytes) :
    copyLoop chunks (List.replicate (totalLength chunks) 0) 0 = chunks.flatten := by
  have h := copyLoop_append chunks []
  simpa using h

lemma streamToBuffer_ok (s : BodyStream) (h : s.failsAtEnd = false) :
    streamToBuffer s = .ok s.chunks.flatten := by
  unfold streamToBuffer
  rw [h, copyLoop_join]
  rfl

/-- When the body is present and readable, credentials are set, the
signature header is a non-empty string, and the verification primitive
accepts, `fetch` reaches the event dispatch. -/
lemma fetch_gates (lib : Verifier) (req : Request) (env : Env) (s : BodyStream)
    (raw : Bytes) (sig : String) (e : Event)
    (hb : req.body = some s)
    (hraw : streamToBuffer s = .ok raw)
    (h1 : env.STRIPE_WEBHOOK_SIGNING_SECRET.isEmpty = false)
    (h2 : env.STRIPE_SECRET.isEmpty = false)
    (h3 : env.STRIPE_PUBLISHABLE_KEY.isEmpty = false)
    (h4 : env.STRIPE_PAYMENT_LINK_ID.isEmpty = false)
    (hsig : getHeader req.headers "stripe-signature" = some sig)
    (hsg : sig.isEmpty = false)
    (hlib : lib raw sig env.STRIPE_WEBHOOK_SIGNING_SECRET = .ok e) :
    fetch lib req env = dispatchEvent e env := by
  simp [fetch, hb, hraw, hsig, h1, h2, h3, h4, hsg, hlib]

/-! Concrete fixtures for witnesses and counterexamples. -/

/-- A body stream that yields two chunks and completes normally. -/
def goodStream : BodyStream := ⟨[[123, 34], [116, 101]], false⟩

/-- The bytes `goodStream` carries. -/
def goodBytes : Bytes := [123, 34, 116, 101]

/-- A body stream that errors after yielding one chunk. -/
def failStream : BodyStream := ⟨[[123]], true⟩

/-- Headers carrying a Stripe signature. -/
def goodHeaders : List (String × String) :=
  [("content-type", "application/json"), ("stripe-signature", "t=1,v1=abc")]

/-- A fully configured environment. -/
def goodEnv : Env := ⟨"whsec_test", "sk_test", "pk_test", "plink_1"⟩

/-- A webhook POST with a readable body and a signature header. -/
def postReq : Request :=
  ⟨"https://example.com/stripe-webhook", "POST", goodHeaders, some goodStream⟩

/-- A verification primitive that accepts any payload as the event `e`
(the claims quantify over whatever event the trusted primitive returns;
witnesses instantiate it). -/
def libFor (e : Event) : Verifier := fun _ _ _ => Except.ok e

/-- A checkout event that passes every check in the checkout branch. -/
def evValid : Event :=
  ⟨"evt_1", "checkout.session.completed",
    { payment_status := some "paid", mode := some "payment",
      amount_total := some 500, payment_link := some "plink_1",
      customer_details := some ⟨some "a@b.c", some "Ann"⟩,
      currency := some "usd" }⟩

/-- A webhook request whose body stream errors mid-read. -/
def failReq : Request :=
  ⟨"https://example.com/stripe-webhook", "POST", goodHeaders, some failStream⟩

/-- A request carrying no body at all. -/
def noBodyReq : Request :=
  ⟨"https://example.com/stripe-webhook", "POST", goodHeaders, none⟩

/-- A verified event of an unhandled type. -/
def evFooBar : Event := ⟨"evt_3", "foo.bar", {}⟩

/-- An unconfigured environment (all bindings empty). -/
def emptyEnv : Env := ⟨"", "", "", ""⟩

/-- Helper lemma: the checkout branch always produces a response. -/
lemma checkoutBranch_isOk (o : StripeObject) (env : Env) :
    (checkoutBranch o env).isOk = true := by
  unfold checkoutBranch
  repeat' split
  all_goals rfl

/-- Helper lemma: event dispatch always produces a response. -/
lemma dispatchEvent_isOk (e : Event) (env : Env) :
    (dispatchEvent e env).isOk = true := by
  unfold dispatchEvent
  split
  · exact checkoutBranch_isOk e.object env
  · split
    · rfl
    · rfl

/-- C1: the claim demands that delivering the same `eventId` twice runs the
fulfillment side effect only once.  The code keeps no processed-event
ledger and never reads `event.id`, so the second delivery of the very same
valid checkout event runs the fulfillment again: two deliveries yield two
fulfillment effects, not one. -/
theorem C1_duplicate_delivery_fulfills_twice :
    (fetch (libFor evValid) postReq goodEnv).effectsOf
        = [Effect.fulfill (some "a@b.c") (some "Ann") 500]
      ∧ countFulfill ((fetch (libFor evValid) postReq goodEnv).effectsOf
          ++ (fetch (libFor evValid) postReq goodEnv).effectsOf) = 2
      ∧ countFulfill ((fetch (libFor evValid) postReq goodEnv).effectsOf
          ++ (fetch (libFor evValid) postReq goodEnv).effectsOf) ≠ 1 := by
  decide

/-- C2 counterexample: a request whose body stream errors mid-read makes
the un-guarded `await streamToBuffer(request.body)` at `main.ts` line 75
reject, and the exception escapes `fetch` uncaught — no defined status
code is returned, contradicting the claim. -/
theorem C2_stream_error_escapes :
    fetch (libFor evValid) failReq goodEnv = .escaped .incomplete
      ∧ (fetch (libFor evValid) failReq goodEnv).isOk = false := by
  decide

/-- C2 amended: whenever the body stream (if any) completes without error,
every path through the handler returns a defined response; only a
body-stream error escapes uncaught. -/
theorem C2_response_total_without_stream_error (lib : Verifier) (req : Request)
    (env : Env) (h : ∀ s, req.body = some s → s.failsAtEnd = false) :
    (fetch lib req env).isOk = true := by
  unfold fetch
  cases hb : req.body with
  | none => rfl
  | some s =>
    simp only [streamToBuffer_ok s (h s hb)]
    repeat' split
    all_goals first
      | rfl
      | exact dispatchEvent_isOk _ env

/-- Witness for C2: a concrete request with a well-behaved stream gets a
response. -/
theorem C2_response_total_witness :
    (fetch (libFor evValid) postReq goodEnv).isOk = true :=
  C2_response_total_without_stream_error (libFor evValid) postReq goodEnv
    (fun s hs => by
      have h : goodStream = s := by
        have hb : postReq.body = some goodStream := rfl
        rw [hb] at hs
        exact Option.some.inj hs
      rw [← h]
      rfl)

/-- C3 counterexample: a verified event of unhandled type `foo.bar` is
answered with status 404 (a client error, not a success status) and the
body `{"isSuccessful":false,"message":"Invalid event"}` — not with a
success-status `Acknowledged("unhandled type")`. -/
theorem C3_unknown_type_counterexample :
    fetch (libFor evFooBar) postReq goodEnv = .ok ⟨invalidEventJson, 404⟩ []
      ∧ ¬ (200 ≤ 404 ∧ 404 < 300) := by
  decide

/-- C3 amended: every verified event whose type is none of the four
handled types (`checkout.session.completed` and the three
`customer.subscription.*` types the code lists) falls through to a 404
response with body `{"isSuccessful":false,"message":"Invalid event"}`,
and no handler runs (no side effects). -/
theorem C3_unhandled_type_404 (lib : Verifier) (req : Request) (env : Env)
    (s : BodyStream) (raw : Bytes) (sig : String) (e : Event)
    (hb : req.body = some s)
    (hraw : streamToBuffer s = .ok raw)
    (h1 : env.STRIPE_WEBHOOK_SIGNING_SECRET.isEmpty = false)
    (h2 : env.STRIPE_SECRET.isEmpty = false)
    (h3 : env.STRIPE_PUBLISHABLE_KEY.isEmpty = false)
    (h4 : env.STRIPE_PAYMENT_LINK_ID.isEmpty = false)
    (hsig : getHeader req.headers "stripe-signature" = some sig)
    (hsg : sig.isEmpty = false)
    (hlib : lib raw sig env.STRIPE_WEBHOOK_SIGNING_SECRET = .ok e)
    (ht1 : e.type ≠ "checkout.session.completed")
    (ht2 : e.type ≠ "customer.subscription.deleted")
    (ht3 : e.type ≠ "customer.subscription.updated")
    (ht4 : e.type ≠ "customer.subscription.paused") :
    fetch lib req env = .ok ⟨invalidEventJson, 404⟩ [] := by
  rw [fetch_gates lib req env s raw sig e hb hraw h1 h2 h3 h4 hsig hsg hlib]
  simp [dispatchEvent, ht1, ht2, ht3, ht4]

/-- Witness for C3's amended theorem at the concrete `foo.bar` event. -/
theorem C3_unhandled_type_404_witness :
    fetch (libFor evFooBar) postReq goodEnv = .ok ⟨invalidEventJson, 404⟩ [] :=
  C3_unhandled_type_404 (libFor evFooBar) postReq goodEnv goodStream goodBytes
    "t=1,v1=abc" evFooBar rfl rfl rfl rfl rfl rfl rfl rfl rfl
    (by decide) (by decide) (by decide) (by decide)

/-- C4 counterexample: a bodyless request is answered by
`new Response(JSON.stringify({isSuccessful:false, message:"No body"}))`
with no status option, so the status defaults to 200 — a success status,
not the client-error status the claim requires. -/
theorem C4_no_body_counterexample :
    fetch (libFor evValid) noBodyReq goodEnv = .ok ⟨noBodyJson, 200⟩ []
      ∧ ¬ (400 ≤ 200 ∧ 200 < 500) := by
  decide

/-- C4 amended: a bodyless request is answered immediately with the
default status 200 and body `{"isSuccessful":false,"message":"No body"}`;
no event is processed — no effects are emitted and the result does not
depend on the verification primitive or the environment at all. -/
theorem C4_no_body_responds_200 (lib lib' : Verifier) (req : Request)
    (env env' : Env) (h : req.body = none) :
    fetch lib req env = .ok ⟨noBodyJson, 200⟩ []
      ∧ fetch lib req env = fetch lib' req env' := by
  refine ⟨?_, ?_⟩ <;> (unfold fetch; rw [h])

/-- Witness for C4's amended theorem at a concrete bodyless request. -/
theorem C4_no_body_responds_200_witness :
    fetch (libFor evValid) noBodyReq goodEnv = .ok ⟨noBodyJson, 200⟩ []
      ∧ fetch (libFor evValid) noBodyReq goodEnv
          = fetch (libFor evFooBar) noBodyReq emptyEnv :=
  C4_no_body_responds_200 (libFor evValid) (libFor evFooBar) noBodyReq
    goodEnv emptyEnv rfl

/-- A checkout event whose customer has an empty email. -/
def evEmptyEmail : Event :=
  ⟨"evt_5", "checkout.session.completed",
    { payment_status := some "paid", mode := some "payment",
      amount_total := some 500, payment_link := some "plink_1",
      customer_details := some ⟨some "", some "Ann"⟩,
      currency := some "usd" }⟩

/-- A checkout event with no customer details at all. -/
def evNoCustomer : Event :=
  ⟨"evt_5b", "checkout.session.completed",
    { payment_status := some "paid", mode := some "payment",
      amount_total := some 500, payment_link := some "plink_1",
      customer_details := none, currency := some "usd" }⟩

/-- A checkout event paid 10 cents (below the 50-cent minimum). -/
def evAmount10 : Event :=
  ⟨"evt_7", "checkout.session.completed",
    { payment_status := some "paid", mode := some "payment",
      amount_total := some 10, payment_link := some "plink_1",
      customer_details := some ⟨some "a@b.c", some "Ann"⟩,
      currency := some "usd" }⟩

/-- A checkout event marked paid with `amount_total` equal to 0. -/
def evZeroAmount : Event :=
  ⟨"evt_9", "checkout.session.completed",
    { payment_status := some "paid", mode := some "payment",
      amount_total := some 0, payment_link := some "plink_1",
      customer_details := some ⟨some "a@b.c", some "Ann"⟩,
      currency := some "usd" }⟩

/-- C5 counterexample: a checkout event whose customer email is the empty
string is not rejected — the handler never examines the email, so
fulfillment runs with the empty email and the response is a 200, not the
claimed `Rejected("missing customer email")` client error. -/
theorem C5_empty_email_counterexample :
    fetch (libFor evEmptyEmail) postReq goodEnv =
        .ok ⟨"Not implemented yet, but Ann <> paid 500 cents", 200⟩
          [Effect.fulfill (some "") (some "Ann") 500]
      ∧ countFulfill (fetch (libFor evEmptyEmail) postReq goodEnv).effectsOf ≠ 0
      ∧ ¬ (400 ≤ 200 ∧ 200 < 500) := by
  decide

/-- C5 amended: for a checkout event that passes the product-reference and
paid checks, only a null `customer_details` is rejected (status 400,
"No customer details provided", no fulfillment); the email is never
checked — when `customer_details` is present and the remaining mode and
minimum-amount checks pass, fulfillment runs with whatever email it holds
(including the empty one). -/
theorem C5_customer_null_check (lib : Verifier) (req : Request) (env : Env)
    (s : BodyStream) (raw : Bytes) (sig : String) (e : Event) (n : Int)
    (hb : req.body = some s)
    (hraw : streamToBuffer s = .ok raw)
    (h1 : env.STRIPE_WEBHOOK_SIGNING_SECRET.isEmpty = false)
    (h2 : env.STRIPE_SECRET.isEmpty = false)
    (h3 : env.STRIPE_PUBLISHABLE_KEY.isEmpty = false)
    (h4 : env.STRIPE_PAYMENT_LINK_ID.isEmpty = false)
    (hsig : getHeader req.headers "stripe-signature" = some sig)
    (hsg : sig.isEmpty = false)
    (hlib : lib raw sig env.STRIPE_WEBHOOK_SIGNING_SECRET = .ok e)
    (ht : e.type = "checkout.session.completed")
    (hpl : e.object.payment_link = some env.STRIPE_PAYMENT_LINK_ID)
    (hps : e.object.payment_status = some "paid")
    (hamt : e.object.amount_total = some n)
    (hn0 : n ≠ 0) :
    (e.object.customer_details = none →
        fetch lib req env = .ok ⟨"No customer details provided", 400⟩ [])
      ∧ (∀ cd, e.object.customer_details = some cd →
          e.object.mode ≠ some "subscription" → e.object.mode ≠ some "setup" →
          50 ≤ n →
          fetch lib req env = .ok ⟨fulfillMsg cd n, 200⟩
            [Effect.fulfill cd.email cd.name n]) := by
  rw [fetch_gates lib req env s raw sig e hb hraw h1 h2 h3 h4 hsig hsg hlib]
  constructor
  · intro hcd
    simp [dispatchEvent, ht, checkoutBranch, hpl, hamt, hps, hn0, hcd]
  · intro cd hcd hm1 hm2 hmin
    have hlt : ¬ n < 50 := by omega
    simp [dispatchEvent, ht, checkoutBranch, hpl, hamt, hps, hn0, hcd, hm1, hm2, hlt]

/-- Witness for C5's amended theorem: the null-customer event is answered
400 with no fulfillment. -/
theorem C5_customer_null_check_witness :
    fetch (libFor evNoCustomer) postReq goodEnv =
      .ok ⟨"No customer details provided", 400⟩ [] :=
  (C5_customer_null_check (libFor evNoCustomer) postReq goodEnv goodStream
    goodBytes "t=1,v1=abc" evNoCustomer 500 rfl rfl rfl rfl rfl rfl rfl rfl
    rfl rfl rfl rfl rfl (by decide)).1 rfl

/-- C7: a checkout event that passes the product-reference, paid, customer
and mode checks but whose `amount_total` is below the 50-cent minimum is
answered with the client-error 400 "Paid less than $0.50" and no
entitlement is granted. -/
theorem C7_below_minimum_rejected (lib : Verifier) (req : Request) (env : Env)
    (s : BodyStream) (raw : Bytes) (sig : String) (e : Event) (n : Int)
    (cd : CustomerDetails)
    (hb : req.body = some s)
    (hraw : streamToBuffer s = .ok raw)
    (h1 : env.STRIPE_WEBHOOK_SIGNING_SECRET.isEmpty = false)
    (h2 : env.STRIPE_SECRET.isEmpty = false)
    (h3 : env.STRIPE_PUBLISHABLE_KEY.isEmpty = false)
    (h4 : env.STRIPE_PAYMENT_LINK_ID.isEmpty = false)
    (hsig : getHeader req.headers "stripe-signature" = some sig)
    (hsg : sig.isEmpty = false)
    (hlib : lib raw sig env.STRIPE_WEBHOOK_SIGNING_SECRET = .ok e)
    (ht : e.type = "checkout.session.completed")
    (hpl : e.object.payment_link = some env.STRIPE_PAYMENT_LINK_ID)
    (hps : e.object.payment_status = some "paid")
    (hamt : e.object.amount_total = some n)
    (hn0 : n ≠ 0)
    (hcd : e.object.customer_details = some cd)
    (hm1 : e.object.mode ≠ some "subscription")
    (hm2 : e.object.mode ≠ some "setup")
    (hlt : n < 50) :
    fetch lib req env = .ok ⟨"Paid less than $0.50", 400⟩ []
      ∧ (fetch lib req env).effectsOf = [] := by
  rw [fetch_gates lib req env s raw sig e hb hraw h1 h2 h3 h4 hsig hsg hlib]
  refine ⟨?_, ?_⟩ <;>
    simp [dispatchEvent, ht, checkoutBranch, hpl, hamt, hps, hn0, hcd, hm1, hm2, hlt,
      FetchResult.effectsOf]

/-- Witness for C7 at a concrete event paid 10 cents. -/
theorem C7_below_minimum_rejected_witness :
    fetch (libFor evAmount10) postReq goodEnv
        = .ok ⟨"Paid less than $0.50", 400⟩ []
      ∧ (fetch (libFor evAmount10) postReq goodEnv).effectsOf = [] :=
  C7_below_minimum_rejected (libFor evAmount10) postReq goodEnv goodStream
    goodBytes "t=1,v1=abc" evAmount10 10 ⟨some "a@b.c", some "Ann"⟩ rfl rfl
    rfl rfl rfl rfl rfl rfl rfl rfl rfl rfl rfl (by decide) rfl (by decide)
    (by decide) (by decide)

/-- C9: a checkout event with `payment_status = "paid"` but
`amount_total = 0` takes the "Payment not paid yet" exit (status 400, no
fulfillment), because the guard tests `!amount_total`, which conflates 0
with a missing amount. -/
theorem C9_zero_amount_treated_as_unpaid (lib : Verifier) (req : Request)
    (env : Env) (s : BodyStream) (raw : Bytes) (sig : String) (e : Event)
    (hb : req.body = some s)
    (hraw : streamToBuffer s = .ok raw)
    (h1 : env.STRIPE_WEBHOOK_SIGNING_SECRET.isEmpty = false)
    (h2 : env.STRIPE_SECRET.isEmpty = false)
    (h3 : env.STRIPE_PUBLISHABLE_KEY.isEmpty = false)
    (h4 : env.STRIPE_PAYMENT_LINK_ID.isEmpty = false)
    (hsig : getHeader req.headers "stripe-signature" = some sig)
    (hsg : sig.isEmpty = false)
    (hlib : lib raw sig env.STRIPE_WEBHOOK_SIGNING_SECRET = .ok e)
    (ht : e.type = "checkout.session.completed")
    (hpl : e.object.payment_link = some env.STRIPE_PAYMENT_LINK_ID)
    (_hps : e.object.payment_status = some "paid")
    (hamt : e.object.amount_total = some 0) :
    fetch lib req env = .ok ⟨"Payment not paid yet", 400⟩ []
      ∧ (fetch lib req env).effectsOf = [] := by
  rw [fetch_gates lib req env s raw sig e hb hraw h1 h2 h3 h4 hsig hsg hlib]
  refine ⟨?_, ?_⟩ <;>
    simp [dispatchEvent, ht, checkoutBranch, hpl, hamt, FetchResult.effectsOf]

/-- Witness for C9 at a concrete paid event with zero amount. -/
theorem C9_zero_amount_treated_as_unpaid_witness :
    fetch (libFor evZeroAmount) postReq goodEnv
        = .ok ⟨"Payment not paid yet", 400⟩ []
      ∧ (fetch (libFor evZeroAmount) postReq goodEnv).effectsOf = [] :=
  C9_zero_amount_treated_as_unpaid (libFor evZeroAmount) postReq goodEnv
    goodStream goodBytes "t=1,v1=abc" evZeroAmount rfl rfl rfl rfl rfl rfl
    rfl rfl rfl rfl rfl rfl rfl

/-- A subscription event whose subscription has status `paused`. -/
def evSubPaused : Event :=
  ⟨"evt_6", "customer.subscription.updated", { status := some "paused" }⟩

/-- A subscription-deleted event whose subscription has status `canceled`. -/
def evSubCanceled : Event :=
  ⟨"evt_6b", "customer.subscription.deleted", { status := some "canceled" }⟩

/-- C6 counterexample: a subscription event with status `paused` does not
take the revoke path — `updateSubscribed` only treats `unpaid` and
`canceled` as removal-worthy, so `paused` is answered
"No action required" with no revoke effect, contrary to the claim. -/
theorem C6_paused_counterexample :
    fetch (libFor evSubPaused) postReq goodEnv =
        .ok ⟨subResultJson ⟨200, "No action required"⟩, 200⟩ []
      ∧ Effect.revoke ∉ (fetch (libFor evSubPaused) postReq goodEnv).effectsOf := by
  decide

/-- C6 amended: for subscription events (the three handled
`customer.subscription.*` types), the revoke-worthy statuses are exactly
`unpaid` and `canceled`: those run the removal path once; every other
status — including `paused` — is answered "No action required" with no
revoke. -/
theorem C6_revoke_statuses (lib : Verifier) (req : Request) (env : Env)
    (s : BodyStream) (raw : Bytes) (sig : String) (e : Event)
    (hb : req.body = some s)
    (hraw : streamToBuffer s = .ok raw)
    (h1 : env.STRIPE_WEBHOOK_SIGNING_SECRET.isEmpty = false)
    (h2 : env.STRIPE_SECRET.isEmpty = false)
    (h3 : env.STRIPE_PUBLISHABLE_KEY.isEmpty = false)
    (h4 : env.STRIPE_PAYMENT_LINK_ID.isEmpty = false)
    (hsig : getHeader req.headers "stripe-signature" = some sig)
    (hsg : sig.isEmpty = false)
    (hlib : lib raw sig env.STRIPE_WEBHOOK_SIGNING_SECRET = .ok e)
    (ht : e.type = "customer.subscription.deleted"
        ∨ e.type = "customer.subscription.updated"
        ∨ e.type = "customer.subscription.paused") :
    ((e.object.status = some "unpaid" ∨ e.object.status = some "canceled") →
        fetch lib req env =
          .ok ⟨subResultJson
              ⟨200, "Removed from subscribers (they had credits before removal)"⟩,
            200⟩ [Effect.revoke])
      ∧ (e.object.status ≠ some "unpaid" → e.object.status ≠ some "canceled" →
          fetch lib req env =
            .ok ⟨subResultJson ⟨200, "No action required"⟩, 200⟩ []) := by
  rw [fetch_gates lib req env s raw sig e hb hraw h1 h2 h3 h4 hsig hsg hlib]
  have hd : dispatchEvent e env =
      .ok { body := subResultJson (updateSubscribed e.object).1 }
        (updateSubscribed e.object).2 := by
    rcases ht with h | h | h <;> simp [dispatchEvent, h]
  rw [hd]
  constructor
  · rintro (h | h) <;> simp [updateSubscribed, subResultJson, h]
  · intro hu hc
    simp [updateSubscribed, subResultJson, hu, hc]

/-- Witness for C6's amended theorem: `status = canceled` takes the revoke
path. -/
theorem C6_revoke_statuses_witness :
    fetch (libFor evSubCanceled) postReq goodEnv =
      .ok ⟨subResultJson
          ⟨200, "Removed from subscribers (they had credits before removal)"⟩,
        200⟩ [Effect.revoke] :=
  (C6_revoke_statuses (libFor evSubCanceled) postReq goodEnv goodStream
    goodBytes "t=1,v1=abc" evSubCanceled rfl rfl rfl rfl rfl rfl rfl rfl rfl
    (Or.inl rfl)).1 (Or.inr rfl)

lemma totalLength_eq_sum (l : List Bytes) :
    totalLength l = (l.map List.length).sum := by
  induction l with
  | nil => rfl
  | cons c cs ih => rw [totalLength_cons, List.map_cons, List.sum_cons, ih]

/-- C8: for every body stream that completes without error,
`streamToBuffer` returns exactly the in-order concatenation of the chunks
the stream yielded — every byte in order, with total length the sum of the
chunk lengths. -/
theorem C8_stream_to_buffer_byte_exact (s : BodyStream)
    (h : s.failsAtEnd = false) :
    streamToBuffer s = .ok s.chunks.flatten
      ∧ s.chunks.flatten.length = totalLength s.chunks := by
  refine ⟨streamToBuffer_ok s h, ?_⟩
  rw [totalLength_eq_sum]
  exact List.length_flatten s.chunks

/-- Witness for C8 at a concrete two-chunk stream. -/
theorem C8_stream_to_buffer_byte_exact_witness :
    streamToBuffer goodStream = .ok goodStream.chunks.flatten
      ∧ goodStream.chunks.flatten.length = totalLength goodStream.chunks :=
  C8_stream_to_buffer_byte_exact goodStream rfl

/-- A request identical to `postReq` except for its URL path and method. -/
def getReq : Request :=
  ⟨"https://example.com/some/other/path", "GET", goodHeaders, some goodStream⟩

/-- C10: the handler never inspects the request URL or HTTP method — two
requests that agree on headers and body (but may differ in path and
method) are handled identically, so any request with a valid body and
signature is processed as a webhook. -/
theorem C10_path_method_noninterference (lib : Verifier) (env : Env)
    (r1 r2 : Request) (hh : r1.headers = r2.headers) (hb : r1.body = r2.body) :
    fetch lib r1 env = fetch lib r2 env := by
  cases r1
  cases r2
  cases hh
  cases hb
  rfl

/-- Witness for C10: a GET to an arbitrary path is handled exactly like a
POST to the webhook path. -/
theorem C10_path_method_noninterference_witness :
    fetch (libFor evValid) postReq goodEnv
      = fetch (libFor evValid) getReq goodEnv :=
  C10_path_method_noninterference (libFor evValid) goodEnv postReq getReq
    rfl rfl

end Stripeflare
